import Mathlib

/-!
Verification of the manual grayscale conversion kernel and driver of
`example05.c` (willydlw/vision).

The kernel walks a BGR byte buffer and writes one gray byte per pixel.
Byte memories are modelled as total functions `Nat → Nat` (byte offset to
byte value); the double loop of lines 173-186 is modelled by explicit
state passing over the destination memory.

The C expression `gray = 0.299 * red + 0.587 * green + 0.114 * blue`
assigned to an `unsigned char` gets two numeric models.  `luminance` is
the exact-truncation semantics of spec section 4.2 (coefficients taken
exactly, real-valued sum, truncation toward zero): the rational
`(299*red + 587*green + 114*blue) / 1000` floored.  `lumFloat` is the
bit-exact IEEE-754 binary64 semantics of line 181 under strict double
evaluation (round-to-nearest-even at each product and each
left-associated sum; no excess precision), built from dyadic rationals
carried as integers at scale `2 ^ 120`.  The two agree except at inputs
whose exact luminance sits on (or within one thousandth of) an integer:
for example the double sum at `(1,1,1)` is `1 - 2 ^ -53` and stores 0,
and at `(128,128,128)` it is `128 - 2 ^ -46` and stores 127, where the
exact truncation gives 1 and 128.  Properties that hold for any
luminance function (write positions, read positions, stride and padding
independence) are proved over the loop; properties of the stored value
itself name the numeric model they hold for.
-/

/-- The luminance formula of line 181, `0.299*R + 0.587*G + 0.114*B`,
under the exact-truncation numeric semantics of spec section 4.2:
coefficients taken exactly as stated, truncation toward zero on store
into an 8-bit unsigned slot.  Arguments in the order the code declares
them: blue, green, red.  The bit-exact binary64 semantics of line 181
is `lumFloat` below; the two differ at inputs whose exact luminance is
an integer (`lumFloat 1 1 1 = 0` here gives 1). -/
def luminance (blue green red : Nat) : Nat :=
  (299 * red + 587 * green + 114 * blue) / 1000

/-- The three source byte offsets the inner loop reads for `(row, col)`,
exactly as written on lines 176-178: `row*colorstep + col`, `+ 1`, `+ 2`
(note: `col`, not `3*col`). -/
def readOffsets (colorstep row col : Nat) : List Nat :=
  [row * colorstep + col, row * colorstep + col + 1, row * colorstep + col + 2]

/-- The gray byte the loop body computes for `(row, col)`: lines 176-181
of the source, with the code's own offsets `col`, `col+1`, `col+2`. -/
def kernelByte (colorData : Nat → Nat) (colorstep row col : Nat) : Nat :=
  luminance (colorData (row * colorstep + col))
            (colorData (row * colorstep + col + 1))
            (colorData (row * colorstep + col + 2))

/-- Store one byte into a byte memory. -/
def writeByte (m : Nat → Nat) (i v : Nat) : Nat → Nat :=
  fun j => if j = i then v else m j

/-- The inner loop of lines 174-185 for a fixed `row`, run over columns
`0..n-1`: each iteration stores `kernelByte` at `row*graystep + col`. -/
def runCols (colorData : Nat → Nat) (colorstep graystep row : Nat) :
    Nat → (Nat → Nat) → Nat → Nat
  | 0, grayData => grayData
  | n + 1, grayData =>
      writeByte (runCols colorData colorstep graystep row n grayData)
        (row * graystep + n) (kernelByte colorData colorstep row n)

/-- The outer loop of lines 173-186 run over rows `0..n-1`. -/
def runRows (colorData : Nat → Nat) (colorstep graystep width : Nat) :
    Nat → (Nat → Nat) → Nat → Nat
  | 0, grayData => grayData
  | r + 1, grayData =>
      runCols colorData colorstep graystep r width
        (runRows colorData colorstep graystep width r grayData)

/-- The whole double loop of lines 173-186: from the source memory
`colorData`, the strides and the image dimensions, transform the
destination memory `grayData`. -/
def runKernel (colorData : Nat → Nat) (colorstep graystep height width : Nat)
    (grayData : Nat → Nat) : Nat → Nat :=
  runRows colorData colorstep graystep width height grayData

/-- The destination byte required by the contract of spec section 4.2
(the refinement reference, written from the spec's words): blue at
`r*stride + 3*c`, green at `+1`, red at `+2`, combined by the luminance
formula and truncated. -/
def specGrayByte (S : Nat → Nat) (stride row col : Nat) : Nat :=
  luminance (S (row * stride + 3 * col))
            (S (row * stride + 3 * col + 1))
            (S (row * stride + 3 * col + 2))

/-- Round `a / b` (with `b > 0`) to the nearest integer, ties to even:
the rounding step of IEEE-754 round-to-nearest-even applied to a scaled
mantissa. -/
def rnd2 (a b : Nat) : Nat :=
  let q := a / b
  let r := a % b
  if 2 * r < b then q
  else if b < 2 * r then q + 1
  else if q % 2 = 0 then q else q + 1

/-- For a positive value `n / d`, its binary exponent offset by 70: the
greatest `E ≤ 140` with `2 ^ (E - 70) ≤ n / d`, found by bounded search
(every value arising in the kernel lies well inside that range). -/
def expOffset (n d : Nat) : Nat :=
  (List.range 141).foldl (fun acc E => if 2 ^ E * d ≤ 2 ^ 70 * n then E else acc) 0

/-- Round the nonnegative rational `n / d` to the nearest IEEE-754
binary64 value (round to nearest, ties to even), returned as a numerator
at the fixed scale `2 ^ 120`: with binary exponent `e = E - 70`, the
53-bit mantissa is `rnd2` of `(n/d) * 2 ^ (52 - e)` and the rounded
value is `m * 2 ^ (e - 52)`, i.e. `m * 2 ^ (E - 2)` at scale `2 ^ 120`.
(Subnormals and overflow cannot arise in the kernel's value range.) -/
def roundDoubleN (n d : Nat) : Nat :=
  if n = 0 then 0
  else
    let E := expOffset n d
    rnd2 (n * 2 ^ (122 - E)) d * 2 ^ (E - 2)

/-- The binary64 double nearest the literal `0.299`, at scale `2 ^ 120`. -/
def c299 : Nat := roundDoubleN 299 1000

/-- The binary64 double nearest the literal `0.587`, at scale `2 ^ 120`. -/
def c587 : Nat := roundDoubleN 587 1000

/-- The binary64 double nearest the literal `0.114`, at scale `2 ^ 120`. -/
def c114 : Nat := roundDoubleN 114 1000

/-- Binary64 product of a double (scale `2 ^ 120`) with a small exact
integer: the exact product rounded to the nearest double. -/
def fpMulByte (a v : Nat) : Nat := roundDoubleN (a * v) (2 ^ 120)

/-- Binary64 sum of two doubles at scale `2 ^ 120`: the exact sum
rounded to the nearest double. -/
def fpAdd (a b : Nat) : Nat := roundDoubleN (a + b) (2 ^ 120)

/-- Bit-exact IEEE-754 binary64 semantics of line 181 under strict
double evaluation (round-to-nearest-even at every product and each
left-associated sum of `0.299 * red + 0.587 * green + 0.114 * blue`,
all values dyadic and carried at scale `2 ^ 120`), followed by the
truncating store into the 8-bit unsigned slot.  Differs from
`luminance` exactly where the double sum lands just under an integer:
`lumFloat 1 1 1 = 0` and `lumFloat 128 128 128 = 127`, where
`luminance` gives 1 and 128. -/
def lumFloat (blue green red : Nat) : Nat :=
  fpAdd (fpAdd (fpMulByte c299 red) (fpMulByte c587 green)) (fpMulByte c114 blue) / 2 ^ 120

/-- The gray byte of lines 176-181 under the binary64 semantics of the
luminance expression (same read offsets as `kernelByte`). -/
def kernelByteFP (colorData : Nat → Nat) (colorstep row col : Nat) : Nat :=
  lumFloat (colorData (row * colorstep + col))
           (colorData (row * colorstep + col + 1))
           (colorData (row * colorstep + col + 2))

/-- The inner loop of lines 174-185 under the binary64 semantics. -/
def runColsFP (colorData : Nat → Nat) (colorstep graystep row : Nat) :
    Nat → (Nat → Nat) → Nat → Nat
  | 0, grayData => grayData
  | n + 1, grayData =>
      writeByte (runColsFP colorData colorstep graystep row n grayData)
        (row * graystep + n) (kernelByteFP colorData colorstep row n)

/-- The outer loop of lines 173-186 under the binary64 semantics. -/
def runRowsFP (colorData : Nat → Nat) (colorstep graystep width : Nat) :
    Nat → (Nat → Nat) → Nat → Nat
  | 0, grayData => grayData
  | r + 1, grayData =>
      runColsFP colorData colorstep graystep r width
        (runRowsFP colorData colorstep graystep width r grayData)

/-- The whole double loop of lines 173-186 under the binary64 semantics
of line 181 (the loop structure is identical to `runKernel`; only the
numeric model of the luminance expression differs). -/
def runKernelFP (colorData : Nat → Nat) (colorstep graystep height width : Nat)
    (grayData : Nat → Nat) : Nat → Nat :=
  runRowsFP colorData colorstep graystep width height grayData

/-- The section 4.2 destination byte computed with the code's own
binary64 arithmetic for the luminance: the contract's indexing
`3c, 3c+1, 3c+2` combined by line 181's double formula. -/
def specGrayByteFP (S : Nat → Nat) (stride row col : Nat) : Nat :=
  lumFloat (S (row * stride + 3 * col))
           (S (row * stride + 3 * col + 1))
           (S (row * stride + 3 * col + 2))

/-- Abstract environment of the driver `main`: how many arguments were
passed, whether `cvLoadImage` succeeds, whether the two `cvCreateImage`
calls succeed. -/
structure DriverEnv where
  argc : Nat
  loadOk : Bool
  alloc1Ok : Bool
  alloc2Ok : Bool

/-- Exit status of `main` along its control paths: `-1` at lines 24
(usage), 37 (file not opened), 86 (grayimg allocation) and 96 (mygrayimg
allocation); `0` at line 218. -/
def mainStatus (e : DriverEnv) : Int :=
  if e.argc < 2 then -1
  else if e.loadOk = false then -1
  else if e.alloc1Ok = false then -1
  else if e.alloc2Ok = false then -1
  else 0

/-- Distinct (row, col) pairs with in-stride columns address distinct bytes. -/
theorem rowcol_ne (gs r c r' c' : Nat) (hc : c < gs) (hc' : c' < gs)
    (hne : r ≠ r' ∨ c ≠ c') : r * gs + c ≠ r' * gs + c' := by
  intro he
  rcases Nat.lt_trichotomy r r' with h | h | h
  · have h1 : (r + 1) * gs ≤ r' * gs := Nat.mul_le_mul_right gs h
    have h2 : (r + 1) * gs = r * gs + gs := by ring
    omega
  · subst h
    omega
  · have h1 : (r' + 1) * gs ≤ r * gs := Nat.mul_le_mul_right gs h
    have h2 : (r' + 1) * gs = r' * gs + gs := by ring
    omega

/-- A byte the inner loop never writes keeps its value. -/
theorem runCols_eq_of_notin (colorData : Nat → Nat) (cs gs row n : Nat)
    (grayData : Nat → Nat) (i : Nat) (h : ∀ c < n, i ≠ row * gs + c) :
    runCols colorData cs gs row n grayData i = grayData i := by
  induction n with
  | zero => rfl
  | succ m ih =>
      simp only [runCols, writeByte]
      rw [if_neg (h m (Nat.lt_succ_self m))]
      exact ih fun c hc => h c (Nat.lt_succ_of_lt hc)

/-- The inner loop leaves `kernelByte` at each column it visits. -/
theorem runCols_apply (colorData : Nat → Nat) (cs gs row n : Nat)
    (grayData : Nat → Nat) (c : Nat) (hc : c < n) :
    runCols colorData cs gs row n grayData (row * gs + c) =
      kernelByte colorData cs row c := by
  induction n with
  | zero => exact absurd hc (Nat.not_lt_zero c)
  | succ m ih =>
      simp only [runCols, writeByte]
      by_cases hcm : c = m
      · subst hcm
        rw [if_pos rfl]
      · rw [if_neg (by omega)]
        exact ih (by omega)

/-- A byte no row ever writes keeps its value. -/
theorem runRows_eq_of_notin (colorData : Nat → Nat) (cs gs w n : Nat)
    (grayData : Nat → Nat) (i : Nat)
    (h : ∀ r < n, ∀ c < w, i ≠ r * gs + c) :
    runRows colorData cs gs w n grayData i = grayData i := by
  induction n with
  | zero => rfl
  | succ m ih =>
      simp only [runRows]
      rw [runCols_eq_of_notin colorData cs gs m w _ i
        (fun c hc => h m (Nat.lt_succ_self m) c hc)]
      exact ih fun r hr c hc => h r (Nat.lt_succ_of_lt hr) c hc

/-- The double loop leaves `kernelByte` at each useful position, as long
as the destination stride is at least the width (so writes do not alias). -/
theorem runRows_apply (colorData : Nat → Nat) (cs gs w : Nat) (hgs : w ≤ gs)
    (n : Nat) (grayData : Nat → Nat) (r c : Nat) (hr : r < n) (hc : c < w) :
    runRows colorData cs gs w n grayData (r * gs + c) =
      kernelByte colorData cs r c := by
  induction n with
  | zero => exact absurd hr (Nat.not_lt_zero r)
  | succ m ih =>
      simp only [runRows]
      rcases Nat.lt_succ_iff_lt_or_eq.mp hr with h | h
      · rw [runCols_eq_of_notin colorData cs gs m w _ _ (fun c' hc' =>
          rowcol_ne gs r c m c' (lt_of_lt_of_le hc hgs) (lt_of_lt_of_le hc' hgs)
            (Or.inl (by omega)))]
        exact ih h
      · subst h
        exact runCols_apply colorData cs gs r w _ c hc

/-- A byte the binary64 inner loop never writes keeps its value. -/
theorem runColsFP_eq_of_notin (colorData : Nat → Nat) (cs gs row n : Nat)
    (grayData : Nat → Nat) (i : Nat) (h : ∀ c < n, i ≠ row * gs + c) :
    runColsFP colorData cs gs row n grayData i = grayData i := by
  induction n with
  | zero => rfl
  | succ m ih =>
      simp only [runColsFP, writeByte]
      rw [if_neg (h m (Nat.lt_succ_self m))]
      exact ih fun c hc => h c (Nat.lt_succ_of_lt hc)

/-- The binary64 inner loop leaves `kernelByteFP` at each column it
visits. -/
theorem runColsFP_apply (colorData : Nat → Nat) (cs gs row n : Nat)
    (grayData : Nat → Nat) (c : Nat) (hc : c < n) :
    runColsFP colorData cs gs row n grayData (row * gs + c) =
      kernelByteFP colorData cs row c := by
  induction n with
  | zero => exact absurd hc (Nat.not_lt_zero c)
  | succ m ih =>
      simp only [runColsFP, writeByte]
      by_cases hcm : c = m
      · subst hcm
        rw [if_pos rfl]
      · rw [if_neg (by omega)]
        exact ih (by omega)

/-- The binary64 double loop leaves `kernelByteFP` at each useful
position, as long as the destination stride is at least the width. -/
theorem runRowsFP_apply (colorData : Nat → Nat) (cs gs w : Nat) (hgs : w ≤ gs)
    (n : Nat) (grayData : Nat → Nat) (r c : Nat) (hr : r < n) (hc : c < w) :
    runRowsFP colorData cs gs w n grayData (r * gs + c) =
      kernelByteFP colorData cs r c := by
  induction n with
  | zero => exact absurd hr (Nat.not_lt_zero r)
  | succ m ih =>
      simp only [runRowsFP]
      rcases Nat.lt_succ_iff_lt_or_eq.mp hr with h | h
      · rw [runColsFP_eq_of_notin colorData cs gs m w _ _ (fun c' hc' =>
          rowcol_ne gs r c m c' (lt_of_lt_of_le hc hgs) (lt_of_lt_of_le hc' hgs)
            (Or.inl (by omega)))]
        exact ih h
      · subst h
        exact runColsFP_apply colorData cs gs r w _ c hc

/-- Source memory for the C1 failing input: one row of two pixels,
bytes `[0,0,0, 255,255,255]`, stride 6. -/
def bugSrcData : Nat → Nat :=
  fun i => if i < 3 then 0 else if i < 6 then 255 else 0

/-- Source memory for the C2 pattern `(c, 2c mod 256, 3c mod 256)`,
one row. -/
def patternData : Nat → Nat :=
  fun i =>
    if i % 3 = 0 then (i / 3) % 256
    else if i % 3 = 1 then (2 * (i / 3)) % 256
    else (3 * (i / 3)) % 256

/-- Source memory for the C5 scenario: a single pixel `[10, 20, 30]`. -/
def onePixelData : Nat → Nat :=
  fun i => if i = 0 then 10 else if i = 1 then 20 else if i = 2 then 30 else 0

/-- Source memory every byte of which is 1: a 1x1 image with pixel
`(B,G,R) = (1,1,1)`, whose exact luminance is the integer 1 while the
binary64 sum is `1 - 2 ^ -53`. -/
def allOneData : Nat → Nat := fun _ => 1

/-- C1: the code does NOT read the blue sample at `r*stride + c*3`: on the
2-pixel row `[0,0,0, 255,255,255]` (stride 6) it stores 76 at pixel
(0, 1), where reading at column offsets `3c, 3c+1, 3c+2` as the claim
states yields 255.  The code reads at `c, c+1, c+2` instead. -/
theorem c1_code_bug :
    runKernel bugSrcData 6 2 1 2 (fun _ => 0) (0 * 2 + 1) = 76 ∧
    specGrayByte bugSrcData 6 0 1 = 255 ∧
    runKernel bugSrcData 6 2 1 2 (fun _ => 0) (0 * 2 + 1) ≠
      specGrayByte bugSrcData 6 0 1 := by
  decide

/-- C2: at width 2 the kernel's output on the pattern source differs from
the section 4.2 reference: column 1 of the only row holds 0 where the
reference holds 2. -/
theorem c2_code_bug :
    runKernel patternData 6 2 1 2 (fun _ => 0) (0 * 2 + 1) = 0 ∧
    specGrayByte patternData 6 0 1 = 2 ∧
    runKernel patternData 6 2 1 2 (fun _ => 0) (0 * 2 + 1) ≠
      specGrayByte patternData 6 0 1 := by
  decide

/-- C3: two sources with identical pixel content (bytes `k < 3*width` of
every row) but different valid strides give byte-identical destinations
at every useful position; source padding never influences the output. -/
theorem c3_stride_independence (S1 S2 : Nat → Nat)
    (cs1 cs2 gs width height : Nat) (g1 g2 : Nat → Nat)
    (hv1 : 3 * width ≤ cs1) (hv2 : 3 * width ≤ cs2) (hgs : width ≤ gs)
    (hsame : ∀ r < height, ∀ k < 3 * width, S1 (r * cs1 + k) = S2 (r * cs2 + k))
    (r c : Nat) (hr : r < height) (hc : c < width) :
    runKernel S1 cs1 gs height width g1 (r * gs + c) =
    runKernel S2 cs2 gs height width g2 (r * gs + c) := by
  rw [runKernel, runKernel, runRows_apply S1 cs1 gs width hgs height g1 r c hr hc,
    runRows_apply S2 cs2 gs width hgs height g2 r c hr hc]
  have e1 : S1 (r * cs1 + c) = S2 (r * cs2 + c) := hsame r hr c (by omega)
  have e2 : S1 (r * cs1 + c + 1) = S2 (r * cs2 + c + 1) := hsame r hr (c + 1) (by omega)
  have e3 : S1 (r * cs1 + c + 2) = S2 (r * cs2 + c + 2) := hsame r hr (c + 2) (by omega)
  simp only [kernelByte, e1, e2, e3]

/-- Witness for C3 at a concrete input: width 1, height 1, source strides
3 and 4, constant source bytes. -/
theorem c3_witness :
    runKernel (fun _ => 5) 3 1 1 1 (fun _ => 0) (0 * 1 + 0) =
    runKernel (fun _ => 5) 4 1 1 1 (fun _ => 9) (0 * 1 + 0) :=
  c3_stride_independence (fun _ => 5) (fun _ => 5) 3 4 1 1 1 (fun _ => 0)
    (fun _ => 9) (by decide) (by decide) (by decide)
    (fun _ _ _ _ => rfl) 0 0 (by decide) (by decide)

/-- C4: a destination byte in the row padding (column between `width` and
the destination stride) keeps the value it had before the call. -/
theorem c4_frame (colorData : Nat → Nat) (cs gs height width : Nat)
    (grayData : Nat → Nat) (r c : Nat) (hr : r < height)
    (hcw : width ≤ c) (hcs : c < gs) :
    runKernel colorData cs gs height width grayData (r * gs + c) =
      grayData (r * gs + c) := by
  rw [runKernel]
  exact runRows_eq_of_notin colorData cs gs width height grayData _
    fun r' _ c' hc' =>
      rowcol_ne gs r c r' c' hcs (by omega) (Or.inr (by omega))

/-- Witness for C4 at a concrete input: 1x1 image, destination stride 2,
canary 137 at the padding byte of row 0. -/
theorem c4_frame_witness :
    runKernel (fun _ => 50) 3 2 1 1 (fun _ => 137) (0 * 2 + 1) =
      (fun _ : Nat => 137) (0 * 2 + 1) :=
  c4_frame (fun _ => 50) 3 2 1 1 (fun _ => 137) 0 1 (by decide) (by decide)
    (by decide)

/-- C5: on the 1x1 source `[10, 20, 30]` the kernel writes the single
byte 21, the truncation of `0.299*30 + 0.587*20 + 0.114*10 = 21.89`. -/
theorem c5_single_pixel :
    runKernel onePixelData 3 1 1 1 (fun _ => 0) (0 * 1 + 0) = 21 := by
  decide

/-- C6: when every pixel byte of the source is zero, every useful
destination byte is zero after the call, whatever the strides and the
padding bytes hold. -/
theorem c6_zero (colorData : Nat → Nat) (cs gs height width : Nat)
    (grayData : Nat → Nat) (hw : 0 < width) (hh : 0 < height)
    (hgs : width ≤ gs)
    (hzero : ∀ r < height, ∀ k < 3 * width, colorData (r * cs + k) = 0)
    (r c : Nat) (hr : r < height) (hc : c < width) :
    runKernel colorData cs gs height width grayData (r * gs + c) = 0 := by
  rw [runKernel, runRows_apply colorData cs gs width hgs height grayData r c hr hc]
  have e1 : colorData (r * cs + c) = 0 := hzero r hr c (by omega)
  have e2 : colorData (r * cs + c + 1) = 0 := hzero r hr (c + 1) (by omega)
  have e3 : colorData (r * cs + c + 2) = 0 := hzero r hr (c + 2) (by omega)
  simp only [kernelByte, e1, e2, e3, luminance]

/-- Witness for C6 at a concrete input: 1x1 all-zero source, stride 3,
destination stride 1, garbage initial destination. -/
theorem c6_zero_witness :
    runKernel (fun _ => 0) 3 1 1 1 (fun _ => 77) (0 * 1 + 0) = 0 :=
  c6_zero (fun _ => 0) 3 1 1 1 (fun _ => 77) (by decide) (by decide)
    (by decide) (fun _ _ _ _ => rfl) 0 0 (by decide) (by decide)

/-- Environment refuting C7: an argument is present and the image loads,
but the first grayscale allocation fails. -/
def c7Env : DriverEnv := ⟨2, true, false, true⟩

/-- C7 counterexample: the driver exits non-zero in a case that is
neither of the claim's two failure cases (argument present, file opened,
but `cvCreateImage` for grayimg fails at line 83). -/
theorem c7_counterexample :
    mainStatus c7Env ≠ 0 ∧ ¬(c7Env.argc < 2 ∨ c7Env.loadOk = false) := by
  decide

/-- C7 amended: the driver exits 0 exactly when the argument is present,
the image loads and both allocations succeed; it exits non-zero exactly
when the argument is missing, the file cannot be opened, or either
grayscale allocation fails. -/
theorem c7_amended (e : DriverEnv) :
    (mainStatus e = 0 ↔
      2 ≤ e.argc ∧ e.loadOk = true ∧ e.alloc1Ok = true ∧ e.alloc2Ok = true) ∧
    (mainStatus e ≠ 0 ↔
      e.argc < 2 ∨ e.loadOk = false ∨ e.alloc1Ok = false ∨
        e.alloc2Ok = false) := by
  rcases e with ⟨a, l, a1, a2⟩
  simp only [mainStatus]
  cases l <;> cases a1 <;> cases a2 <;>
    by_cases h : a < 2 <;> simp [h] <;> omega

/-- C8 counterexample: even at width 1 the loop does not always produce
the byte the section 4.2 contract requires: on the 1x1 source with
pixel `(1,1,1)` the code's binary64 evaluation of line 181 gives
`1 - 2 ^ -53` and stores 0, while the contract byte (truncation of the
exact luminance 1.0) is 1. -/
theorem c8_counterexample :
    runKernelFP allOneData 3 1 1 1 (fun _ => 0) (0 * 1 + 0) = 0 ∧
    specGrayByte allOneData 3 0 0 = 1 ∧
    runKernelFP allOneData 3 1 1 1 (fun _ => 0) (0 * 1 + 0) ≠
      specGrayByte allOneData 3 0 0 := by
  decide

/-- C8 (amended): at width 1 the code's indexing `(col, col+1, col+2)`
coincides with the contract's `(3c, 3c+1, 3c+2)`: for every row the
loop reads exactly the three source bytes section 4.2 specifies and its
destination byte equals the section 4.2 reference evaluated with the
same line-181 binary64 arithmetic.  (Byte equality with the contract's
exact truncation additionally fails at integer-luminance pixels, per
the counterexample.) -/
theorem c8_width_one (colorData : Nat → Nat) (cs gs height : Nat)
    (grayData : Nat → Nat) (hgs : 1 ≤ gs) (r : Nat) (hr : r < height) :
    runKernelFP colorData cs gs height 1 grayData (r * gs + 0) =
      specGrayByteFP colorData cs r 0 := by
  rw [runKernelFP,
    runRowsFP_apply colorData cs gs 1 hgs height grayData r 0 hr (by decide)]
  simp [kernelByteFP, specGrayByteFP]

/-- Witness for C8 at a concrete input: height 1, source stride 3,
identity source bytes. -/
theorem c8_width_one_witness :
    runKernelFP (fun i => i) 3 1 1 1 (fun _ => 0) (0 * 1 + 0) =
      specGrayByteFP (fun i => i) 3 0 0 :=
  c8_width_one (fun i => i) 3 1 1 (fun _ => 0) (by decide) 0 (by decide)

/-- C9: for `c < width` each of the three offsets the inner loop reads
lies within the row's pixel bytes `[r*colorstep, r*colorstep + 3*width)`;
consequently the gray byte depends only on those bytes and never on a
source row-padding byte. -/
theorem c9_reads_in_row (S T : Nat → Nat) (cs width r c : Nat)
    (hc : c < width)
    (hag : ∀ i, r * cs ≤ i → i < r * cs + 3 * width → S i = T i) :
    (∀ i ∈ readOffsets cs r c, r * cs ≤ i ∧ i < r * cs + 3 * width) ∧
    kernelByte S cs r c = kernelByte T cs r c := by
  constructor
  · intro i hi
    simp only [readOffsets, List.mem_cons, List.not_mem_nil, or_false] at hi
    rcases hi with h | h | h <;> subst h <;> omega
  · have e1 : S (r * cs + c) = T (r * cs + c) :=
      hag (r * cs + c) (by omega) (by omega)
    have e2 : S (r * cs + c + 1) = T (r * cs + c + 1) :=
      hag (r * cs + c + 1) (by omega) (by omega)
    have e3 : S (r * cs + c + 2) = T (r * cs + c + 2) :=
      hag (r * cs + c + 2) (by omega) (by omega)
    simp only [kernelByte, e1, e2, e3]

/-- Witness for C9 at a concrete input: width 1, stride 3, row 0,
column 0, two sources agreeing on the three pixel bytes. -/
theorem c9_reads_in_row_witness :
    (∀ i ∈ readOffsets 3 0 0, 0 * 3 ≤ i ∧ i < 0 * 3 + 3 * 1) ∧
    kernelByte (fun _ => 8) 3 0 0 = kernelByte (fun _ => 8) 3 0 0 :=
  c9_reads_in_row (fun _ => 8) (fun _ => 8) 3 1 0 0 (by decide)
    (fun _ _ _ => rfl)

/-- C10 (amended): under the exact-truncation numeric semantics of
section 4.2 for line 181 (the model `kernelByte`), the gray value of
every pixel lies between the minimum and the maximum of the three
source bytes the loop read for it: the weights are non-negative, sum to
1, and truncation stays between integers.  The byte the code actually
stores under binary64 evaluation can fall one below this minimum at
pixels whose exact luminance is an integer, per the counterexample. -/
theorem c10_gray_bounds (S : Nat → Nat) (cs r c : Nat) :
    min (S (r * cs + c)) (min (S (r * cs + c + 1)) (S (r * cs + c + 2))) ≤
      kernelByte S cs r c ∧
    kernelByte S cs r c ≤
      max (S (r * cs + c)) (max (S (r * cs + c + 1)) (S (r * cs + c + 2))) := by
  constructor
  · have h1 := min_le_left (S (r * cs + c)) (min (S (r * cs + c + 1)) (S (r * cs + c + 2)))
    have h2 := le_trans (min_le_right (S (r * cs + c)) _)
      (min_le_left (S (r * cs + c + 1)) (S (r * cs + c + 2)))
    have h3 := le_trans (min_le_right (S (r * cs + c)) _)
      (min_le_right (S (r * cs + c + 1)) (S (r * cs + c + 2)))
    simp only [kernelByte, luminance]
    omega
  · have h1 := le_max_left (S (r * cs + c)) (max (S (r * cs + c + 1)) (S (r * cs + c + 2)))
    have h2 := le_trans (le_max_left (S (r * cs + c + 1)) (S (r * cs + c + 2)))
      (le_max_right (S (r * cs + c)) _)
    have h3 := le_trans (le_max_right (S (r * cs + c + 1)) (S (r * cs + c + 2)))
      (le_max_right (S (r * cs + c)) _)
    simp only [kernelByte, luminance]
    omega

/-- C10 counterexample: on the pixel `(B,G,R) = (1,1,1)` the binary64
evaluation of line 181 stores 0, strictly below the minimum (1) of the
three source bytes the loop read for that pixel: double rounding drops
the sum to `1 - 2 ^ -53` and the truncating store crosses the integer. -/
theorem c10_counterexample :
    runKernelFP allOneData 3 1 1 1 (fun _ => 0) (0 * 1 + 0) <
      min (allOneData (0 * 3 + 0))
        (min (allOneData (0 * 3 + 0 + 1)) (allOneData (0 * 3 + 0 + 2))) := by
  decide
